import Mathlib

/-!
Verification of the interview-session / transcript / report core of the
Company Alignment Facilitator.

The embedding below translates the Python sources (`ai_interviewer.py`,
`facilitator.py`, `data_manager.py`, `report_generator.py`, `config.py`)
into executable Lean definitions.  The data-model module (`models.py`:
`ConversationRole`, `ConversationTurn`, `InterviewSession`,
`AlignmentReport` and their serialization) is not part of the available
sources; those definitions are modelled from the specification (§3 data
model, §6 transcript file format) and are consistent with the behaviour
exercised by `tests.py`.

External effects are made explicit:
 - wall-clock instants are `Nat` parameters threaded into the operations
   that read the clock;
 - the language-model provider outcome for a single call is an
   `Except String String` argument (error = raised exception message);
 - the transcript directory is a list of stored file records, written in
   order.
-/

set_option maxRecDepth 8192

/-- Decidable equality of `Except` results, for evaluating the model on
concrete inputs. -/
instance {ε α : Type} [DecidableEq ε] [DecidableEq α] :
    DecidableEq (Except ε α) := fun a b =>
  match a, b with
  | .ok x, .ok y =>
    if h : x = y then .isTrue (by rw [h]) else .isFalse (by simp [h])
  | .error x, .error y =>
    if h : x = y then .isTrue (by rw [h]) else .isFalse (by simp [h])
  | .ok _, .error _ => .isFalse (by simp)
  | .error _, .ok _ => .isFalse (by simp)

namespace AlignAgent

/-! ## String helpers (Python `str.strip`, `str.lower`, `in`, `str.title`) -/

/-- Characters removed by Python `str.strip()` (ASCII whitespace set). -/
def pyWhitespace (c : Char) : Bool :=
  c = ' ' || c = Char.ofNat 9 || c = Char.ofNat 10 || c = Char.ofNat 13 ||
  c = Char.ofNat 11 || c = Char.ofNat 12

/-- Python `s.strip()`: remove leading and trailing whitespace. -/
def pyStrip (s : String) : String :=
  ⟨((s.data.dropWhile pyWhitespace).reverse.dropWhile pyWhitespace).reverse⟩

/-- Python `s.lower()` (ASCII case folding). -/
def pyLower (s : String) : String :=
  ⟨s.data.map Char.toLower⟩

/-- Does `l` start with `p`? -/
def listStartsWith : List Char → List Char → Bool
  | _, [] => true
  | [], _ :: _ => false
  | a :: as, b :: bs => a = b && listStartsWith as bs

/-- Does `l` contain `sub` as a contiguous run?  (Python `sub in l`.) -/
def containsSub : List Char → List Char → Bool
  | [], sub => sub.isEmpty
  | a :: as, sub => listStartsWith (a :: as) sub || containsSub as sub

/-- Python `needle in hay` on strings. -/
def strIn (needle hay : String) : Bool :=
  containsSub hay.data needle.data

/-- Python `s.title()` restricted to a single lowercase word
(`"user" → "User"`), as used on role names. -/
def pyTitle (s : String) : String :=
  match s.data with
  | [] => ""
  | c :: cs => ⟨c.toUpper :: cs⟩

/-- A single-quote character, kept out of string literals. -/
def sq : String := ⟨[Char.ofNat 39]⟩

/-! ## config.py -/

namespace Config

/-- `Config.MAX_INTERVIEW_TURNS` in `config.py`. -/
def MAX_INTERVIEW_TURNS : Nat := 5

end Config

/-! ## models.py (modelled from the spec) -/

/-- Modelled from the spec: `models.py` is not among the available sources.
Spec §3: `role` is an enum USER | ASSISTANT; serialized values are
`"user"` / `"assistant"` (§6, confirmed by `tests.py`). -/
inductive ConversationRole where
  | user
  | assistant
deriving DecidableEq

/-- Serialized role name (`role.value` in the Python sources). -/
def ConversationRole.value : ConversationRole → String
  | .user => "user"
  | .assistant => "assistant"

/-- Modelled from the spec: `models.py` is not among the available sources.
Spec §3 ConversationTurn: role, content, creation instant; immutable. -/
structure ConversationTurn where
  role : ConversationRole
  content : String
  timestamp : Nat
deriving DecidableEq

/-- Modelled from the spec: `models.py` is not among the available sources.
Spec §3 InterviewSession: topic, ordered conversation, `max_turns`
(default 5), `turns`, `is_active`, `created_at`.  Defaults match
`tests.py` (`is_active` defaults to false, `turns` to 0). -/
structure InterviewSession where
  topic : String
  conversation : List ConversationTurn := []
  max_turns : Nat := 5
  turns : Nat := 0
  is_active : Bool := false
  created_at : Nat := 0
deriving DecidableEq

/-- Modelled from the spec: `models.py` is not among the available sources.
Spec §3 invariant: "`turns` equals the number of ASSISTANT turns
contributed *after* the initial greeting turn — the session starts with
one seed ASSISTANT turn that does not count toward `turns`".  So an
appended ASSISTANT turn increments `turns` unless it is the very first
turn of the conversation.  This matches every `tests.py` expectation
(e.g. USER+ASSISTANT from empty gives `turns = 1`; three ASSISTANT turns
after a USER turn give `turns = 3`; seed + one exchange give `turns = 1`). -/
def InterviewSession.add_turn (s : InterviewSession) (role : ConversationRole)
    (content : String) (now : Nat) : InterviewSession :=
  { s with
    conversation := s.conversation ++ [⟨role, content, now⟩]
    turns :=
      if role = ConversationRole.assistant ∧ s.conversation ≠ [] then
        s.turns + 1
      else s.turns }

/-- Modelled from the spec: `models.py` is not among the available sources.
Spec §3: "Session is complete when `turns >= max_turns`." -/
def InterviewSession.is_complete (s : InterviewSession) : Bool :=
  s.max_turns ≤ s.turns

/-- Modelled from the spec: `models.py` is not among the available sources.
Spec §3 AlignmentReport: summary, total_interviews, topic. -/
structure AlignmentReport where
  summary : String
  total_interviews : Nat
  topic : String
deriving DecidableEq

/-! ### Serialized form (spec §6 transcript file format) -/

/-- Modelled from the spec: one element of the serialized `conversation`
array — `{role, content, timestamp}` with the role as its string value. -/
structure TurnDict where
  role : String
  content : String
  timestamp : Nat
deriving DecidableEq

/-- Modelled from the spec: the serialized session object
(`InterviewSession.to_dict` output): keys `topic`, `max_turns`, `turns`,
`is_active`, `created_at`, `conversation`. -/
structure SessionDict where
  topic : String
  max_turns : Nat
  turns : Nat
  is_active : Bool
  created_at : Nat
  conversation : List TurnDict
deriving DecidableEq

/-- Modelled from the spec: `ConversationTurn.to_dict`. -/
def ConversationTurn.to_dict (t : ConversationTurn) : TurnDict :=
  ⟨t.role.value, t.content, t.timestamp⟩

/-- Modelled from the spec: parsing a serialized role string back to the
enum; an unknown role name is malformed content (`CorruptDataError`). -/
def roleFromString (r : String) : Except String ConversationRole :=
  if r = "user" then .ok .user
  else if r = "assistant" then .ok .assistant
  else .error "Invalid conversation role"

/-- Modelled from the spec: `ConversationTurn.from_dict`. -/
def ConversationTurn.from_dict (d : TurnDict) : Except String ConversationTurn :=
  match roleFromString d.role with
  | .error e => .error e
  | .ok r => .ok ⟨r, d.content, d.timestamp⟩

/-- Modelled from the spec: `InterviewSession.to_dict`. -/
def InterviewSession.to_dict (s : InterviewSession) : SessionDict :=
  ⟨s.topic, s.max_turns, s.turns, s.is_active, s.created_at,
    s.conversation.map ConversationTurn.to_dict⟩

/-- Parse each serialized turn in order, failing on the first malformed one. -/
def turnsFromDicts : List TurnDict → Except String (List ConversationTurn)
  | [] => .ok []
  | d :: ds =>
    match ConversationTurn.from_dict d with
    | .error e => .error e
    | .ok t =>
      match turnsFromDicts ds with
      | .error e => .error e
      | .ok ts => .ok (t :: ts)

/-- Modelled from the spec: `InterviewSession.from_dict`. -/
def InterviewSession.from_dict (d : SessionDict) : Except String InterviewSession :=
  match turnsFromDicts d.conversation with
  | .error e => .error e
  | .ok ts => .ok ⟨d.topic, ts, d.max_turns, d.turns, d.is_active, d.created_at⟩

/-! ## data_manager.py -/

/-- One transcript file as written by `DataManager.save_interview_session`:
the serialized session plus the save metadata (`saved_at`, `file_version`). -/
structure StoredTranscript where
  data : SessionDict
  saved_at : Nat
  file_version : String
deriving DecidableEq

/-- The conversations directory: the sequence of transcript files written,
in write order. -/
abbrev Store := List StoredTranscript

/-- `DataManager.save_interview_session`: refuses an empty conversation,
otherwise writes the serialized session plus `saved_at` and
`file_version = "1.0"`.  Returns the grown store together with the record
written (the Python function returns the written file path). -/
def save_interview_session (store : Store) (s : InterviewSession) (now : Nat) :
    Except String (Store × StoredTranscript) :=
  if s.conversation = [] then
    .error "Cannot save empty interview session"
  else
    let fileRec : StoredTranscript := ⟨s.to_dict, now, "1.0"⟩
    .ok (store ++ [fileRec], fileRec)

/-- `DataManager.load_interview_session`: deserialize one file record. -/
def load_interview_session (f : StoredTranscript) : Except String InterviewSession :=
  InterviewSession.from_dict f.data

/-- `DataManager.load_all_interview_sessions`: load every file, silently
skipping any that fail to parse. -/
def load_all_interview_sessions (store : Store) : List InterviewSession :=
  store.filterMap fun f => (load_interview_session f).toOption

/-- `DataManager.get_conversation_text`: topic header line, then one line
per turn as `"<Role>: <content>"`, joined with newlines. -/
def get_conversation_text (s : InterviewSession) : String :=
  let nl : String := ⟨[Char.ofNat 10]⟩
  let lines := ("Topic: " ++ s.topic ++ nl) ::
    s.conversation.map fun t => pyTitle t.role.value ++ ": " ++ t.content ++ nl
  String.intercalate nl lines

/-! ## ai_interviewer.py / facilitator.py state

The facilitator holds one `AIInterviewer` (whose mutable state is the
optional current session and the conversation chain memory) and one
`DataManager` (whose durable state is the transcript store).  We thread
all three as one explicit state record; the non-demo mode of the
facilitator is modelled (`Config.is_demo_mode() = False`). -/

structure FacState where
  /-- `AIInterviewer.current_session`. -/
  current : Option InterviewSession
  /-- `ConversationBufferMemory` of the conversation chain: the
  (human input, ai output) exchanges recorded by successful `predict`
  calls, cleared by `end_session`. -/
  memory : List (String × String)
  /-- The transcript files written so far. -/
  store : Store
deriving DecidableEq

/-- Fresh facilitator: no session, empty chain memory, empty directory. -/
def FacState.init : FacState := ⟨none, [], []⟩

/-- `AIInterviewer._generate_initial_question`: the fixed templated
greeting referencing the (raw, untrimmed) topic. -/
def generate_initial_question (topic : String) : String :=
  "Thank you for participating in our alignment session. We" ++ sq ++
  "re focusing on: " ++ sq ++ topic ++ sq ++ ". " ++
  "To get started, could you share your initial thoughts on this topic? " ++
  "What does it mean to you, and what aspects are most important from your perspective?"

/-- `AIInterviewer.start_session`: raises on a topic that is empty after
stripping; otherwise replaces the current session with a fresh active one
(topic stripped, `max_turns` from config) seeded with the ASSISTANT
greeting, and returns it.  The chain memory and the store are untouched. -/
def start_session (st : FacState) (topic : String) (now : Nat) :
    Except String (FacState × InterviewSession) :=
  if pyStrip topic = "" then
    .error "Topic cannot be empty"
  else
    let s0 : InterviewSession :=
      { topic := pyStrip topic
        max_turns := Config.MAX_INTERVIEW_TURNS
        is_active := true
        created_at := now }
    let s1 := s0.add_turn .assistant (generate_initial_question topic) now
    .ok ({ st with current := some s1 }, s1)

/-- Result of one `conduct_interview` call: the post-call state, the
returned `(ai_response, is_complete, error_message)` triple, and whether
the external provider was invoked. -/
structure ConductResult where
  state : FacState
  response : String
  is_complete : Bool
  error : Option String
  provider_called : Bool
deriving DecidableEq

/-- `AIInterviewer.conduct_interview`: guards (no active session; already
complete), then appends the USER turn, invokes the provider (its outcome
for this call is the `provider` argument), and on success appends the
ASSISTANT turn and records the exchange in the chain memory.  A provider
exception is caught and returned as a descriptive message; the appended
USER turn is not rolled back. -/
def conduct_interview (st : FacState) (msg : String)
    (provider : Except String String) (now : Nat) : ConductResult :=
  match st.current with
  | none => ⟨st, "", false, some "No active interview session", false⟩
  | some s =>
    if s.is_active = false then
      ⟨st, "", false, some "No active interview session", false⟩
    else if s.is_complete then
      ⟨st, "", true, some "Interview is already complete", false⟩
    else
      let s1 := s.add_turn .user msg now
      match provider with
      | .error e =>
        ⟨{ st with current := some s1 }, "", false,
          some ("An error occurred: " ++ e), true⟩
      | .ok resp =>
        let s2 := s1.add_turn .assistant resp now
        ⟨{ st with current := some s2, memory := st.memory ++ [(msg, resp)] },
          resp, s2.is_complete, none, true⟩

/-- `AIInterviewer.end_session`: no-op when no session; otherwise
deactivates the session, clears the engine reference and the chain
memory, and returns the now-inactive session. -/
def end_session (st : FacState) : FacState × Option InterviewSession :=
  match st.current with
  | none => (st, none)
  | some s =>
    ({ st with current := none, memory := [] }, some { s with is_active := false })

/-- `CompanyAlignmentFacilitator._save_current_session`: reads the
engine's *current* session and saves it when it exists and has a
non-empty conversation; any save error is caught and swallowed. -/
def save_current_session (st : FacState) (now : Nat) : FacState :=
  match st.current with
  | none => st
  | some s =>
    if s.conversation = [] then st
    else
      match save_interview_session st.store s now with
      | .error _ => st
      | .ok (store2, _) => { st with store := store2 }

/-- `CompanyAlignmentFacilitator.start_new_session` (non-demo mode):
returns a user-facing message; the engine is given the stripped topic. -/
def fac_start (st : FacState) (topic : String) (now : Nat) : FacState × String :=
  if pyStrip topic = "" then
    (st, "Please enter a valid alignment topic.")
  else
    match start_session st (pyStrip topic) now with
    | .ok (st2, _) =>
      (st2, "Alignment session started! Topic: " ++ sq ++ topic ++ sq ++
        ". The interview interface is now active.")
    | .error e => (st, "Error starting session: " ++ e)

/-- `CompanyAlignmentFacilitator.conduct_interview` (non-demo mode):
delegates to the engine, and when the returned `is_complete` is true
saves the current session before returning the triple. -/
def fac_conduct (st : FacState) (msg : String)
    (provider : Except String String) (now : Nat) : ConductResult :=
  let r := conduct_interview st msg provider now
  if r.is_complete then { r with state := save_current_session r.state now }
  else r

/-- `CompanyAlignmentFacilitator.end_session`: ends the engine session,
then — if a session was returned — calls `_save_current_session` (which
reads the engine's current session, already cleared by `end_session`),
and reports success. -/
def fac_end (st : FacState) (now : Nat) : FacState × String :=
  let (st2, sess) := end_session st
  let st3 := match sess with
    | some _ => save_current_session st2 now
    | none => st2
  (st3, "Alignment session ended. All data has been saved.")

/-! ### Orchestrator transition system -/

/-- One orchestrator operation, with the external inputs it consumes
(wall-clock instant; provider outcome). -/
inductive FacOp where
  | start (topic : String) (now : Nat)
  | conduct (msg : String) (provider : Except String String) (now : Nat)
  | endSession (now : Nat)

/-- Apply one orchestrator operation to the state. -/
def applyOp (st : FacState) : FacOp → FacState
  | .start t now => (fac_start st t now).1
  | .conduct m p now => (fac_conduct st m p now).state
  | .endSession now => (fac_end st now).1

/-- Apply a sequence of orchestrator operations from a state. -/
def runOps (st : FacState) (ops : List FacOp) : FacState :=
  ops.foldl applyOp st

/-- States the orchestrator can actually be in, starting from a fresh
facilitator. -/
inductive Reachable : FacState → Prop where
  | init : Reachable FacState.init
  | step (st : FacState) (op : FacOp) : Reachable st → Reachable (applyOp st op)

/-! ## report_generator.py

The summarization chain and the comparative-synthesis call are external
provider capabilities; a successful run's combined summary text is the
`summary` argument (the claims under verification constrain session
retention, error conditions, counts and labels, not the generated prose). -/

/-- The case-insensitive substring test used for topic filters:
Python `topic.lower() in session.topic.lower()`. -/
def topicMatches (filt : String) (sessionTopic : String) : Bool :=
  strIn (pyLower filt) (pyLower sessionTopic)

/-- `ReportGenerator.generate_alignment_report`: loads all sessions
(`NoDataError` when none), applies the optional topic filter (a Python
falsy filter — absent or empty — is no filter; `NoMatchingTopicError`
when the filter eliminates everything), converts the retained sessions
to documents, and assembles the report. -/
def generate_alignment_report (store : Store) (topic : Option String)
    (summary : String) : Except String AlignmentReport :=
  let sessions := load_all_interview_sessions store
  if sessions = [] then
    .error "No interview transcripts found. Please conduct some interviews first."
  else
    let filterGiven : Bool := match topic with
      | some t => t ≠ ""
      | none => false
    let t := topic.getD ""
    let sessions2 :=
      if filterGiven then sessions.filter fun s => topicMatches t s.topic
      else sessions
    if sessions2 = [] then
      .error ("No interviews found for topic: " ++ t)
    else
      let documents := sessions2.map get_conversation_text
      if documents = [] then .error "No valid conversation data found"
      else
        .ok ⟨summary, sessions2.length,
          if filterGiven then t else "Various topics"⟩

/-- Append `s` under key `k` of the insertion-ordered dictionary `d`
(Python `dict` keyed by topic string). -/
def dictAppend (d : List (String × List InterviewSession)) (k : String)
    (s : InterviewSession) : List (String × List InterviewSession) :=
  match d with
  | [] => [(k, [s])]
  | (k2, v) :: rest =>
    if k2 = k then (k2, v ++ [s]) :: rest
    else (k2, v) :: dictAppend rest k s

/-- The `topic_sessions` dictionary built by
`ReportGenerator.generate_comparative_report`: for each session in load
order, for each topic label in the given order, append the session under
that label when it matches. -/
def build_topic_sessions (allSessions : List InterviewSession)
    (topics : List String) : List (String × List InterviewSession) :=
  allSessions.foldl
    (fun d s => topics.foldl
      (fun d2 t => if topicMatches t s.topic then dictAppend d2 t s else d2) d)
    []

/-- Total number of sessions held across the dictionary groups
(Python: sum of len(sessions) over topic_sessions.values()). -/
def dictTotal (d : List (String × List InterviewSession)) : Nat :=
  (d.map fun p => p.2.length).sum

/-- `ReportGenerator.generate_comparative_report`: loads all sessions
(error when none), groups them under the matching topic labels, fails
when no label matched any session, and otherwise reports
`total_interviews` as the summed group sizes under a joined topic label. -/
def generate_comparative_report (store : Store) (topics : List String)
    (summary : String) : Except String AlignmentReport :=
  let allSessions := load_all_interview_sessions store
  if allSessions = [] then
    .error "No interview data available for comparison"
  else
    let topicSessions := build_topic_sessions allSessions topics
    if topicSessions = [] then
      .error "No interviews found for the specified topics"
    else
      .ok ⟨summary, dictTotal topicSessions,
        "Comparative analysis: " ++ String.intercalate ", " topics⟩

/-! ## Iterated calls and concrete scenario states -/

/-- Iterate `conduct_interview`, one call per (message, provider reply)
pair with a successful provider outcome, collecting the `is_complete`
flag returned by each call in order. -/
def conduct_ok_flags (st : FacState) (pairs : List (String × String))
    (now : Nat) : List Bool :=
  match pairs with
  | [] => []
  | (m, r) :: rest =>
    (conduct_interview st m (Except.ok r) now).is_complete ::
      conduct_ok_flags (conduct_interview st m (Except.ok r) now).state rest now

/-- Placeholder session used only as the default of `Option.getD`. -/
def dfltSession : InterviewSession := { topic := "" }

/-- Scenario: the five successful exchanges of one full interview. -/
def demoOps : List FacOp :=
  [.start "Remote work policy" 0,
   .conduct "m1" (.ok "r1") 1, .conduct "m2" (.ok "r2") 2,
   .conduct "m3" (.ok "r3") 3, .conduct "m4" (.ok "r4") 4,
   .conduct "m5" (.ok "r5") 5]

/-- Orchestrator state right after starting a session. -/
def demoActiveState : FacState :=
  (fac_start FacState.init "Remote work policy" 0).1

/-- The freshly started session. -/
def demoActiveSession : InterviewSession :=
  demoActiveState.current.getD dfltSession

/-- Orchestrator state after one successful exchange. -/
def demoMidState : FacState :=
  runOps FacState.init
    [.start "Remote work policy" 0, .conduct "m1" (.ok "r1") 1]

/-- The mid-interview session. -/
def demoMidSession : InterviewSession :=
  demoMidState.current.getD dfltSession

/-- Orchestrator state after a full five-exchange interview (the current
session is complete and one transcript has been saved). -/
def demoCompleteState : FacState := runOps FacState.init demoOps

/-- The completed session still held as current. -/
def demoCompleteSession : InterviewSession :=
  demoCompleteState.current.getD dfltSession

/-- The engine-level result of starting a session on a fresh state. -/
def demoStartPair : FacState × InterviewSession :=
  (start_session FacState.init "Remote work policy" 0).toOption.getD
    (FacState.init, dfltSession)

/-- Message/reply pairs for a five-call interview run. -/
def demoPairs : List (String × String) :=
  [("m1", "r1"), ("m2", "r2"), ("m3", "r3"), ("m4", "r4"), ("m5", "r5")]

/-- A stored transcript about remote work. -/
def demoTranscriptA : StoredTranscript :=
  ⟨⟨"Remote work policy", 5, 1, false, 0,
    [⟨"assistant", "hello", 0⟩, ⟨"user", "hi", 1⟩]⟩, 10, "1.0"⟩

/-- A stored transcript about office space. -/
def demoTranscriptB : StoredTranscript :=
  ⟨⟨"Office space", 5, 1, false, 0,
    [⟨"assistant", "hello", 0⟩, ⟨"user", "hey", 1⟩]⟩, 11, "1.0"⟩

/-- A two-transcript conversations directory. -/
def demoStore : Store := [demoTranscriptA, demoTranscriptB]

/-- A concrete non-empty session for round-trip checks. -/
def demoSavedSession : InterviewSession :=
  ⟨"Team rituals",
    [⟨.assistant, "welcome", 0⟩, ⟨.user, "thanks", 1⟩, ⟨.assistant, "tell me more", 2⟩],
    5, 1, true, 0⟩

/-! # Basic lemmas about the session model -/

theorem add_turn_conversation (s : InterviewSession) (role : ConversationRole)
    (c : String) (now : Nat) :
    (s.add_turn role c now).conversation = s.conversation ++ [⟨role, c, now⟩] := rfl

theorem add_turn_is_active (s : InterviewSession) (role : ConversationRole)
    (c : String) (now : Nat) :
    (s.add_turn role c now).is_active = s.is_active := rfl

theorem add_turn_max_turns (s : InterviewSession) (role : ConversationRole)
    (c : String) (now : Nat) :
    (s.add_turn role c now).max_turns = s.max_turns := rfl

theorem add_turn_user_turns (s : InterviewSession) (c : String) (now : Nat) :
    (s.add_turn .user c now).turns = s.turns := by
  simp [InterviewSession.add_turn]

theorem add_turn_assistant_turns (s : InterviewSession) (c : String) (now : Nat)
    (h : s.conversation ≠ []) :
    (s.add_turn .assistant c now).turns = s.turns + 1 := by
  simp [InterviewSession.add_turn, h]

/-- The already-complete branch of `conduct_interview`: the guard fires
before the provider call, the state is untouched. -/
theorem conduct_interview_complete_eq (st : FacState) (s : InterviewSession)
    (msg : String) (provider : Except String String) (now : Nat)
    (hc : st.current = some s) (ha : s.is_active = true)
    (hcomp : s.is_complete = true) :
    conduct_interview st msg provider now =
      ⟨st, "", true, some "Interview is already complete", false⟩ := by
  simp [conduct_interview, hc, ha, hcomp]

/-- The provider-failure branch of `conduct_interview`: the exception is
caught and returned; the USER turn stays appended, nothing else moves. -/
theorem conduct_interview_error_eq (st : FacState) (s : InterviewSession)
    (msg e : String) (now : Nat) (hc : st.current = some s)
    (ha : s.is_active = true) (hnc : s.is_complete = false) :
    conduct_interview st msg (.error e) now =
      ⟨{ st with current := some (s.add_turn .user msg now) }, "", false,
        some ("An error occurred: " ++ e), true⟩ := by
  simp [conduct_interview, hc, ha, hnc]

/-! # Claims about the interview engine -/

/-- C3: start_session(topic) fails with InvalidInputError exactly when
the topic is empty after trimming; for every non-empty (after trimming)
topic it returns a session whose conversation contains exactly one turn
— the seed ASSISTANT greeting — and whose turns counter is 0. -/
theorem start_session_spec (st : FacState) (topic : String) (now : Nat) :
    ((∃ e, start_session st topic now = .error e) ↔ pyStrip topic = "") ∧
    (∀ st2 s, start_session st topic now = .ok (st2, s) →
      s.conversation = [⟨.assistant, generate_initial_question topic, now⟩] ∧
      s.turns = 0 ∧ st2.current = some s) := by
  by_cases h : pyStrip topic = ""
  · refine ⟨by simp [start_session, h], ?_⟩
    intro st2 s hok
    simp [start_session, h] at hok
  · refine ⟨by simp [start_session, h], ?_⟩
    intro st2 s hok
    simp [start_session, h] at hok
    obtain ⟨h1, h2⟩ := hok
    subst h1
    subst h2
    simp [InterviewSession.add_turn]

theorem c3_witness :
    (∃ e, start_session FacState.init "   " 0 = .error e) ∧
    (demoStartPair.2.conversation =
      [⟨.assistant, generate_initial_question "Remote work policy", 0⟩] ∧
      demoStartPair.2.turns = 0 ∧
      demoStartPair.1.current = some demoStartPair.2) :=
  ⟨(start_session_spec FacState.init "   " 0).1.mpr (by decide),
   (start_session_spec FacState.init "Remote work policy" 0).2
     demoStartPair.1 demoStartPair.2 (by decide)⟩

/-- C4: submitTurn (conduct_interview) on a Complete session fails with
AlreadyCompleteError ("Interview is already complete"), does not invoke
the provider (provider_called = false) and does not append any turn (the
state, hence the session, is returned unchanged). -/
theorem conduct_on_complete_fails_without_provider (st : FacState)
    (s : InterviewSession) (msg : String) (provider : Except String String)
    (now : Nat) (hc : st.current = some s) (ha : s.is_active = true)
    (hcomp : s.is_complete = true) :
    conduct_interview st msg provider now =
      ⟨st, "", true, some "Interview is already complete", false⟩ :=
  conduct_interview_complete_eq st s msg provider now hc ha hcomp

theorem c4_witness :
    conduct_interview demoCompleteState "extra" (.ok "reply") 9 =
      ⟨demoCompleteState, "", true, some "Interview is already complete", false⟩ :=
  conduct_on_complete_fails_without_provider demoCompleteState
    demoCompleteSession "extra" (.ok "reply") 9 (by decide) (by decide) (by decide)

/-- C5: when the provider call inside conduct_interview fails, the call
returns a descriptive error instead of raising, the session's is_active
flag is unchanged, the USER turn appended before the failure remains in
the conversation, and no ASSISTANT turn is appended. -/
theorem conduct_provider_failure_keeps_user_turn (st : FacState)
    (s : InterviewSession) (msg e : String) (now : Nat)
    (hc : st.current = some s) (ha : s.is_active = true)
    (hnc : s.is_complete = false) :
    conduct_interview st msg (.error e) now =
      ⟨{ st with current := some (s.add_turn .user msg now) }, "", false,
        some ("An error occurred: " ++ e), true⟩ ∧
    (s.add_turn .user msg now).is_active = s.is_active ∧
    (s.add_turn .user msg now).conversation =
      s.conversation ++ [⟨.user, msg, now⟩] :=
  ⟨conduct_interview_error_eq st s msg e now hc ha hnc, rfl, rfl⟩

theorem c5_witness :
    conduct_interview demoActiveState "hello" (.error "boom") 1 =
      ⟨{ demoActiveState with
          current := some (demoActiveSession.add_turn .user "hello" 1) },
        "", false, some ("An error occurred: " ++ "boom"), true⟩ ∧
    (demoActiveSession.add_turn .user "hello" 1).is_active =
      demoActiveSession.is_active ∧
    (demoActiveSession.add_turn .user "hello" 1).conversation =
      demoActiveSession.conversation ++ [⟨.user, "hello", 1⟩] :=
  conduct_provider_failure_keeps_user_turn demoActiveState demoActiveSession
    "hello" "boom" 1 (by decide) (by decide) (by decide)

/-- C10: start_session on a state holding an active session replaces it
with a fresh session: the store is unchanged (the replaced session is
discarded unpersisted), the chain memory is unchanged (the prior
conversation history still feeds subsequent provider calls), and no
deactivated copy of the old session is produced anywhere in the result.
In this pure embedding the replaced session value is immutable, so its
is_active flag is untouched by construction. -/
theorem start_session_replaces_without_saving (st : FacState)
    (s : InterviewSession) (topic : String) (now : Nat)
    (_hc : st.current = some s) (_ha : s.is_active = true)
    (ht : pyStrip topic ≠ "") :
    ∃ st2 s1, start_session st topic now = .ok (st2, s1) ∧
      st2.store = st.store ∧ st2.memory = st.memory ∧
      st2.current = some s1 ∧
      s1.conversation = [⟨.assistant, generate_initial_question topic, now⟩] ∧
      s1.turns = 0 := by
  rw [start_session, if_neg ht]
  exact ⟨_, _, rfl, rfl, rfl, rfl,
    by simp [InterviewSession.add_turn], by simp [InterviewSession.add_turn]⟩

theorem c10_witness :
    ∃ st2 s1, start_session demoMidState "Quarterly goals" 2 = .ok (st2, s1) ∧
      st2.store = demoMidState.store ∧ st2.memory = demoMidState.memory ∧
      st2.current = some s1 ∧
      s1.conversation = [⟨.assistant, generate_initial_question "Quarterly goals", 2⟩] ∧
      s1.turns = 0 :=
  start_session_replaces_without_saving demoMidState demoMidSession
    "Quarterly goals" 2 (by decide) (by decide) (by decide)

/-- One successful conduct call on an active, not-yet-complete session:
USER turn appended, provider reply appended as ASSISTANT turn, exchange
recorded in the chain memory, no error. -/
theorem conduct_ok_step (st : FacState) (s : InterviewSession) (m r : String)
    (now : Nat) (hc : st.current = some s) (ha : s.is_active = true)
    (hlt : s.turns < s.max_turns) :
    conduct_interview st m (.ok r) now =
      ⟨{ st with
          current := some ((s.add_turn .user m now).add_turn .assistant r now),
          memory := st.memory ++ [(m, r)] },
        r, ((s.add_turn .user m now).add_turn .assistant r now).is_complete,
        none, true⟩ := by
  have hnc : s.is_complete = false := by
    simp [InterviewSession.is_complete]
    omega
  simp [conduct_interview, hc, ha, hnc]

/-- A full USER/ASSISTANT exchange increments the turn counter by one. -/
theorem exchange_turns (s : InterviewSession) (m r : String) (now : Nat) :
    ((s.add_turn .user m now).add_turn .assistant r now).turns = s.turns + 1 := by
  rw [add_turn_assistant_turns _ _ _ (by rw [add_turn_conversation]; simp),
    add_turn_user_turns]

/-- Running one successful call per pair from a session whose remaining
budget exactly matches the number of calls yields `false` on every call
but the last and `true` on the last. -/
theorem conduct_ok_flags_spec (pairs : List (String × String)) :
    ∀ (st : FacState) (s : InterviewSession) (now : Nat),
      st.current = some s → s.is_active = true → pairs ≠ [] →
      s.turns + pairs.length = s.max_turns →
      conduct_ok_flags st pairs now =
        List.replicate (pairs.length - 1) false ++ [true] := by
  induction pairs with
  | nil => intro _ _ _ _ _ hne _; exact absurd rfl hne
  | cons p rest ih =>
    intro st s now hc ha _ hlen
    obtain ⟨m, r⟩ := p
    simp only [List.length_cons] at hlen
    have hlt : s.turns < s.max_turns := by omega
    rw [conduct_ok_flags, conduct_ok_step st s m r now hc ha hlt]
    cases rest with
    | nil =>
      have hcomp :
          ((s.add_turn .user m now).add_turn .assistant r now).is_complete = true := by
        simp [InterviewSession.is_complete, exchange_turns, add_turn_max_turns]
        simp at hlen
        omega
      simp [conduct_ok_flags, hcomp]
    | cons q rest2 =>
      have hcomp :
          ((s.add_turn .user m now).add_turn .assistant r now).is_complete = false := by
        simp [InterviewSession.is_complete, exchange_turns, add_turn_max_turns]
        simp at hlen
        omega
      have ihh := ih
        { st with
          current := some ((s.add_turn .user m now).add_turn .assistant r now),
          memory := st.memory ++ [(m, r)] }
        ((s.add_turn .user m now).add_turn .assistant r now) now rfl
        (by rw [add_turn_is_active, add_turn_is_active]; exact ha)
        (by simp)
        (by rw [exchange_turns, add_turn_max_turns, add_turn_max_turns]
            simp only [List.length_cons] at hlen ⊢
            omega)
      simp only [List.length_cons] at ihh ⊢
      rw [hcomp, ihh]
      simp [List.replicate_succ]

/-- C2: for every active session with max_turns = n and turn counter 0,
running n successful submitTurn (conduct_interview) calls returns
isComplete = false on calls 1..n-1 and isComplete = true on the n-th
call. -/
theorem submitTurn_completes_on_nth_call (st : FacState)
    (s : InterviewSession) (pairs : List (String × String)) (now : Nat)
    (hc : st.current = some s) (ha : s.is_active = true) (h0 : s.turns = 0)
    (hn : pairs.length = s.max_turns) (hpos : 0 < s.max_turns) :
    conduct_ok_flags st pairs now =
      List.replicate (s.max_turns - 1) false ++ [true] := by
  have hne : pairs ≠ [] := by
    intro h
    rw [h] at hn
    simp at hn
    omega
  rw [← hn]
  exact conduct_ok_flags_spec pairs st s now hc ha hne (by omega)

theorem c2_witness :
    conduct_ok_flags demoActiveState demoPairs 1 =
      [false, false, false, false, true] :=
  (submitTurn_completes_on_nth_call demoActiveState demoActiveSession
    demoPairs 1 (by decide) (by decide) (by decide) (by decide)
    (by decide)).trans (by decide)

/-! # Transcript store: serialization round-trip -/

theorem role_value_roundtrip (r : ConversationRole) :
    roleFromString r.value = .ok r := by
  cases r <;> rfl

theorem turn_dict_roundtrip (t : ConversationTurn) :
    ConversationTurn.from_dict t.to_dict = .ok t := by
  cases t with
  | mk role content timestamp => cases role <;> rfl

theorem turnsFromDicts_roundtrip (l : List ConversationTurn) :
    turnsFromDicts (l.map ConversationTurn.to_dict) = .ok l := by
  induction l with
  | nil => rfl
  | cons t ts ih => simp [turnsFromDicts, turn_dict_roundtrip, ih]

theorem from_dict_to_dict (s : InterviewSession) :
    InterviewSession.from_dict s.to_dict = .ok s := by
  simp [InterviewSession.from_dict, InterviewSession.to_dict,
    turnsFromDicts_roundtrip]

/-- C8: for every session with a non-empty conversation,
load(save(session)) returns a session whose topic, turns, max_turns, and
every turn's role and content equal those of the original session. -/
theorem save_load_roundtrip (store : Store) (s : InterviewSession) (now : Nat)
    (h : s.conversation ≠ []) :
    ∃ store2 fileRec,
      save_interview_session store s now = .ok (store2, fileRec) ∧
      ∃ s2, load_interview_session fileRec = .ok s2 ∧
        s2.topic = s.topic ∧ s2.turns = s.turns ∧
        s2.max_turns = s.max_turns ∧
        s2.conversation.map (fun t => (t.role, t.content)) =
          s.conversation.map fun t => (t.role, t.content) := by
  rw [save_interview_session, if_neg h]
  exact ⟨_, _, rfl, s,
    by simp [load_interview_session, from_dict_to_dict], rfl, rfl, rfl, rfl⟩

theorem c8_witness :
    demoSavedSession.conversation ≠ [] ∧
    (∃ store2 fileRec,
      save_interview_session [] demoSavedSession 7 = .ok (store2, fileRec) ∧
      ∃ s2, load_interview_session fileRec = .ok s2 ∧
        s2.topic = demoSavedSession.topic ∧
        s2.turns = demoSavedSession.turns ∧
        s2.max_turns = demoSavedSession.max_turns ∧
        s2.conversation.map (fun t => (t.role, t.content)) =
          demoSavedSession.conversation.map fun t => (t.role, t.content)) :=
  ⟨by decide, save_load_roundtrip [] demoSavedSession 7 (by decide)⟩

/-! # Report synthesizer -/

/-- C7: generate(topicFilter) retains exactly the stored sessions whose
topic contains the filter text case-insensitively, fails with
NoMatchingTopicError when that retention is empty (with transcripts
present), and otherwise returns a report with total_interviews equal to
the number of retained sessions and topic equal to the filter text, or
"Various topics" when no filter is given. -/
theorem generate_alignment_report_spec (store : Store) (filt : String)
    (summary : String) :
    (load_all_interview_sessions store ≠ [] → filt ≠ "" →
      ((load_all_interview_sessions store).filter fun s =>
        topicMatches filt s.topic) = [] →
      generate_alignment_report store (some filt) summary =
        .error ("No interviews found for topic: " ++ filt)) ∧
    (load_all_interview_sessions store ≠ [] → filt ≠ "" →
      ((load_all_interview_sessions store).filter fun s =>
        topicMatches filt s.topic) ≠ [] →
      generate_alignment_report store (some filt) summary =
        .ok ⟨summary,
          ((load_all_interview_sessions store).filter fun s =>
            topicMatches filt s.topic).length, filt⟩) ∧
    (load_all_interview_sessions store ≠ [] →
      generate_alignment_report store none summary =
        .ok ⟨summary, (load_all_interview_sessions store).length,
          "Various topics"⟩) := by
  refine ⟨?_, ?_, ?_⟩
  · intro hne hf hr
    simp [generate_alignment_report, hne, hf, hr]
  · intro hne hf hr
    simp [generate_alignment_report, hne, hf, hr]
  · intro hne
    simp [generate_alignment_report, hne]

theorem c7_witness :
    generate_alignment_report demoStore (some "remote") "combined summary" =
      .ok ⟨"combined summary", 1, "remote"⟩ ∧
    generate_alignment_report demoStore (some "zzz-no-match") "combined summary" =
      .error ("No interviews found for topic: " ++ "zzz-no-match") ∧
    generate_alignment_report demoStore none "combined summary" =
      .ok ⟨"combined summary", 2, "Various topics"⟩ := by
  refine ⟨?_, ?_, ?_⟩
  · exact ((generate_alignment_report_spec demoStore "remote" "combined summary").2.1
      (by decide) (by decide) (by decide)).trans (by decide)
  · exact (generate_alignment_report_spec demoStore "zzz-no-match" "combined summary").1
      (by decide) (by decide) (by decide)
  · exact ((generate_alignment_report_spec demoStore "office" "combined summary").2.2
      (by decide)).trans (by decide)

/-! ### Counting lemmas for the comparative report -/

theorem list_sum_map_add {α : Type} (l : List α) (f g : α → Nat) :
    (l.map fun x => f x + g x).sum = (l.map f).sum + (l.map g).sum := by
  induction l with
  | nil => rfl
  | cons a t ih =>
    simp only [List.map_cons, List.sum_cons, ih]
    omega

theorem countP_eq_sum_map {α : Type} (l : List α) (p : α → Bool) :
    l.countP p = (l.map fun x => if p x then 1 else 0).sum := by
  induction l with
  | nil => rfl
  | cons a t ih =>
    simp only [List.countP_cons, List.map_cons, List.sum_cons, ih]
    omega

theorem countP_length_filter {α : Type} (l : List α) (p : α → Bool) :
    l.countP p = (l.filter p).length := by
  induction l with
  | nil => rfl
  | cons a t ih =>
    by_cases h : p a <;> simp [List.countP_cons, List.filter_cons, h, ih]

theorem sum_map_zero {β : Type} (l : List β) :
    (l.map fun _ => (0 : Nat)).sum = 0 := by
  induction l with
  | nil => rfl
  | cons a t ih => simp [ih]

/-- Exchanging the order of a double match count over two lists. -/
theorem sum_swap_count {α β : Type} (l1 : List α) (l2 : List β)
    (m : α → β → Bool) :
    (l2.map fun y => l1.countP fun x => m x y).sum =
    (l1.map fun x => l2.countP fun y => m x y).sum := by
  induction l1 with
  | nil => simp [List.countP_nil, sum_map_zero]
  | cons a t ih =>
    simp only [List.countP_cons]
    rw [list_sum_map_add, ih, ← countP_eq_sum_map]
    simp only [List.map_cons, List.sum_cons]
    exact Nat.add_comm _ _

theorem dictAppend_ne_nil (d : List (String × List InterviewSession))
    (k : String) (s : InterviewSession) : dictAppend d k s ≠ [] := by
  cases d with
  | nil => simp [dictAppend]
  | cons p rest =>
    obtain ⟨k2, v⟩ := p
    by_cases h : k2 = k <;> simp [dictAppend, h]

theorem dictTotal_dictAppend (d : List (String × List InterviewSession))
    (k : String) (s : InterviewSession) :
    dictTotal (dictAppend d k s) = dictTotal d + 1 := by
  induction d with
  | nil => rfl
  | cons p rest ih =>
    obtain ⟨k2, v⟩ := p
    by_cases h : k2 = k
    · simp only [dictAppend, if_pos h, dictTotal, List.map_cons, List.sum_cons,
        List.length_append, List.length_cons, List.length_nil]
      omega
    · simp only [dictAppend, if_neg h, dictTotal, List.map_cons, List.sum_cons]
      simp only [dictTotal] at ih
      omega

theorem dictTotal_inner_fold (topics : List String) (s : InterviewSession) :
    ∀ d, dictTotal (topics.foldl
        (fun d2 t => if topicMatches t s.topic then dictAppend d2 t s else d2) d) =
      dictTotal d + (topics.countP fun t => topicMatches t s.topic) := by
  induction topics with
  | nil => intro d; simp [List.countP_nil]
  | cons t ts ih =>
    intro d
    simp only [List.foldl_cons, List.countP_cons]
    cases h : topicMatches t s.topic with
    | false =>
      rw [if_neg (by simp [h]), ih]
      simp [h]
    | true =>
      rw [if_pos (by simp [h]), ih, dictTotal_dictAppend]
      simp only [h, if_true]
      omega

theorem dictTotal_build_fold (allSessions : List InterviewSession)
    (topics : List String) :
    ∀ d, dictTotal (allSessions.foldl
        (fun d2 s => topics.foldl
          (fun d3 t => if topicMatches t s.topic then dictAppend d3 t s else d3) d2) d) =
      dictTotal d +
        (allSessions.map fun s =>
          topics.countP fun t => topicMatches t s.topic).sum := by
  induction allSessions with
  | nil => intro d; simp
  | cons s ss ih =>
    intro d
    simp only [List.foldl_cons, List.map_cons, List.sum_cons]
    rw [ih, dictTotal_inner_fold]
    omega

/-- The dictionary total equals the per-topic matched-session counts,
summed with multiplicity over the supplied topic list. -/
theorem dictTotal_build (allSessions : List InterviewSession)
    (topics : List String) :
    dictTotal (build_topic_sessions allSessions topics) =
      (topics.map fun t =>
        (allSessions.filter fun s => topicMatches t s.topic).length).sum := by
  rw [build_topic_sessions, dictTotal_build_fold, sum_swap_count]
  simp [dictTotal, countP_length_filter]

theorem inner_fold_eq_nil_iff (topics : List String) (s : InterviewSession) :
    ∀ d, (topics.foldl
        (fun d2 t => if topicMatches t s.topic then dictAppend d2 t s else d2) d) = [] ↔
      (d = [] ∧ ∀ t ∈ topics, topicMatches t s.topic = false) := by
  induction topics with
  | nil => intro d; simp
  | cons t ts ih =>
    intro d
    simp only [List.foldl_cons]
    cases h : topicMatches t s.topic with
    | false =>
      rw [if_neg (by simp [h]), ih]
      simp [h, List.forall_mem_cons]
    | true =>
      rw [if_pos (by simp [h]), ih]
      simp [dictAppend_ne_nil, h, List.forall_mem_cons]

theorem build_fold_eq_nil_iff (allSessions : List InterviewSession)
    (topics : List String) :
    ∀ d, (allSessions.foldl
        (fun d2 s => topics.foldl
          (fun d3 t => if topicMatches t s.topic then dictAppend d3 t s else d3) d2) d) = [] ↔
      (d = [] ∧ ∀ s ∈ allSessions, ∀ t ∈ topics, topicMatches t s.topic = false) := by
  induction allSessions with
  | nil => intro d; simp
  | cons s ss ih =>
    intro d
    simp only [List.foldl_cons]
    rw [ih, inner_fold_eq_nil_iff]
    simp only [List.forall_mem_cons]
    tauto

/-- The dictionary is empty exactly when no stored session matches any
supplied topic label. -/
theorem build_eq_nil_iff (allSessions : List InterviewSession)
    (topics : List String) :
    build_topic_sessions allSessions topics = [] ↔
      ∀ s ∈ allSessions, ∀ t ∈ topics, topicMatches t s.topic = false := by
  rw [build_topic_sessions, build_fold_eq_nil_iff]
  simp

/-- C6: generateComparative(topics) fails exactly when no stored
transcript's topic contains any of the given labels (case-insensitive
substring); otherwise the returned report's total_interviews equals the
sum over the topic groups of the number of matching sessions — a session
matching several supplied filters is counted once per match — and the
report's topic is a joined label of the compared topics. -/
theorem generate_comparative_report_spec (store : Store)
    (topics : List String) (summary : String) :
    ((∃ e, generate_comparative_report store topics summary = .error e) ↔
      ∀ s ∈ load_all_interview_sessions store, ∀ t ∈ topics,
        topicMatches t s.topic = false) ∧
    (∀ r, generate_comparative_report store topics summary = .ok r →
      r.total_interviews =
        (topics.map fun t =>
          ((load_all_interview_sessions store).filter fun s =>
            topicMatches t s.topic).length).sum ∧
      r.topic = "Comparative analysis: " ++ String.intercalate ", " topics) := by
  by_cases hne : load_all_interview_sessions store = []
  · refine ⟨⟨fun _ s hs => ?_, fun _ => ?_⟩, fun r hr => ?_⟩
    · rw [hne] at hs
      cases hs
    · exact ⟨"No interview data available for comparison",
        by simp [generate_comparative_report, hne]⟩
    · simp [generate_comparative_report, hne] at hr
  · by_cases hb :
        build_topic_sessions (load_all_interview_sessions store) topics = []
    · refine ⟨⟨fun _ => ?_, fun _ => ?_⟩, fun r hr => ?_⟩
      · exact (build_eq_nil_iff _ _).mp hb
      · exact ⟨"No interviews found for the specified topics",
          by simp [generate_comparative_report, hne, hb]⟩
      · simp [generate_comparative_report, hne, hb] at hr
    · refine ⟨⟨fun he => ?_, fun hm => ?_⟩, fun r hr => ?_⟩
      · obtain ⟨e, he⟩ := he
        simp [generate_comparative_report, hne, hb] at he
      · exact absurd ((build_eq_nil_iff _ _).mpr hm) hb
      · simp [generate_comparative_report, hne, hb] at hr
        rw [← hr]
        exact ⟨dictTotal_build _ _, rfl⟩

theorem c6_witness :
    (generate_comparative_report demoStore ["remote", "office", "remote"]
        "comparative summary" =
      .ok ⟨"comparative summary", 3,
        "Comparative analysis: remote, office, remote"⟩) ∧
    ((3 : Nat) = (["remote", "office", "remote"].map fun t =>
      ((load_all_interview_sessions demoStore).filter fun s =>
        topicMatches t s.topic).length).sum) := by
  refine ⟨by decide, ?_⟩
  exact ((generate_comparative_report_spec demoStore
    ["remote", "office", "remote"] "comparative summary").2
    ⟨"comparative summary", 3, "Comparative analysis: remote, office, remote"⟩
    (by decide)).1

/-! # Orchestrator state machine: invariants and the save-on-complete /
save-on-end behaviour -/

theorem save_current_session_current (st : FacState) (now : Nat) :
    (save_current_session st now).current = st.current := by
  unfold save_current_session
  cases hcur : st.current with
  | none => exact hcur
  | some s =>
    by_cases h : s.conversation = []
    · simp [h, hcur]
    · simp [h, hcur, save_interview_session]

/-- Saving the current session when it exists and is non-empty appends
exactly one transcript record. -/
theorem save_current_session_eq (st : FacState) (s : InterviewSession)
    (now : Nat) (hc : st.current = some s) (hconv : s.conversation ≠ []) :
    save_current_session st now =
      { st with store := st.store ++ [⟨s.to_dict, now, "1.0"⟩] } := by
  unfold save_current_session
  rw [hc]
  simp [hconv, save_interview_session]

theorem start_session_ok_shape (st : FacState) (t : String) (now : Nat)
    (st2 : FacState) (s1 : InterviewSession)
    (h : start_session st t now = .ok (st2, s1)) :
    st2.current = some s1 ∧ s1.is_active = true ∧ s1.conversation ≠ [] := by
  rw [start_session] at h
  by_cases ht : pyStrip t = ""
  · rw [if_pos ht] at h
    cases h
  · rw [if_neg ht] at h
    simp at h
    obtain ⟨h1, h2⟩ := h
    subst h1
    subst h2
    refine ⟨rfl, rfl, ?_⟩
    rw [add_turn_conversation]
    simp

theorem fac_end_current (st : FacState) (now : Nat) :
    (fac_end st now).1.current = none := by
  rw [fac_end, end_session]
  cases hc0 : st.current with
  | none => simpa using hc0
  | some s0 => simp [save_current_session_current]

/-- Any reachable orchestrator state holding a current session holds it
active and with a non-empty conversation (the seed greeting is always
present). -/
theorem reachable_current_invariant (st : FacState) (hr : Reachable st) :
    ∀ s, st.current = some s → s.is_active = true ∧ s.conversation ≠ [] := by
  induction hr with
  | init => intro s h; cases h
  | step st0 op hr0 ih =>
    intro s h
    cases op with
    | start t now =>
      simp only [applyOp, fac_start] at h
      by_cases ht : pyStrip t = ""
      · rw [if_pos ht] at h
        exact ih s h
      · rw [if_neg ht] at h
        cases hss : start_session st0 (pyStrip t) now with
        | error e =>
          rw [hss] at h
          exact ih s h
        | ok pair =>
          obtain ⟨p1, p2⟩ := pair
          rw [hss] at h
          obtain ⟨hcur, hact, hconv⟩ :=
            start_session_ok_shape st0 (pyStrip t) now p1 p2 hss
          have h2 : p1.current = some s := h
          rw [hcur] at h2
          injection h2 with h3
          subst h3
          exact ⟨hact, hconv⟩
    | conduct m p now =>
      have hcc : (applyOp st0 (FacOp.conduct m p now)).current =
          (conduct_interview st0 m p now).state.current := by
        simp only [applyOp, fac_conduct]
        by_cases hci : (conduct_interview st0 m p now).is_complete = true
        · rw [if_pos hci]
          exact save_current_session_current _ _
        · rw [if_neg hci]
      rw [hcc] at h
      cases hc0 : st0.current with
      | none =>
        have hst : (conduct_interview st0 m p now).state = st0 := by
          rw [conduct_interview, hc0]
        rw [hst] at h
        exact ih s h
      | some s0 =>
        obtain ⟨ha0, hconv0⟩ := ih s0 hc0
        by_cases hcomp : s0.is_complete = true
        · rw [conduct_interview_complete_eq st0 s0 m p now hc0 ha0 hcomp] at h
          have h2 : st0.current = some s := h
          rw [hc0] at h2
          injection h2 with h3
          subst h3
          exact ⟨ha0, hconv0⟩
        · have hnc : s0.is_complete = false := by
            revert hcomp
            cases s0.is_complete <;> simp
          cases p with
          | error e =>
            rw [conduct_interview_error_eq st0 s0 m e now hc0 ha0 hnc] at h
            have h2 : some (s0.add_turn .user m now) = some s := h
            injection h2 with h3
            subst h3
            refine ⟨by rw [add_turn_is_active]; exact ha0, ?_⟩
            rw [add_turn_conversation]
            simp
          | ok resp =>
            have hlt : s0.turns < s0.max_turns := by
              simp [InterviewSession.is_complete] at hnc
              omega
            rw [conduct_ok_step st0 s0 m resp now hc0 ha0 hlt] at h
            have h2 : some ((s0.add_turn .user m now).add_turn .assistant resp now) =
                some s := h
            injection h2 with h3
            subst h3
            refine ⟨by rw [add_turn_is_active, add_turn_is_active]; exact ha0, ?_⟩
            rw [add_turn_conversation]
            simp
    | endSession now =>
      have hnone := fac_end_current st0 now
      simp only [applyOp] at h
      rw [hnone] at h
      cases h

theorem reachable_runOps (ops : List FacOp) :
    ∀ st, Reachable st → Reachable (runOps st ops) := by
  induction ops with
  | nil => intro st h; exact h
  | cons op rest ih =>
    intro st h
    exact ih (applyOp st op) (Reachable.step st op h)

/-- C9: on every reachable orchestrator state whose current session is
Complete, facilitator.conduct_interview returns the already-complete
tuple with isComplete = true and, as a side effect, writes one further
transcript record for that same session through the Transcript Store. -/
theorem conduct_on_complete_saves_again (st : FacState)
    (s : InterviewSession) (msg : String) (provider : Except String String)
    (now : Nat) (hr : Reachable st) (hc : st.current = some s)
    (hcomp : s.is_complete = true) :
    fac_conduct st msg provider now =
      ⟨{ st with store := st.store ++ [⟨s.to_dict, now, "1.0"⟩] },
        "", true, some "Interview is already complete", false⟩ := by
  obtain ⟨ha, hconv⟩ := reachable_current_invariant st hr s hc
  rw [fac_conduct,
    conduct_interview_complete_eq st s msg provider now hc ha hcomp]
  simp [save_current_session_eq st s now hc hconv]

theorem c9_witness :
    fac_conduct demoCompleteState "again" (.ok "reply2") 9 =
      ⟨{ demoCompleteState with
          store := demoCompleteState.store ++
            [⟨demoCompleteSession.to_dict, 9, "1.0"⟩] },
        "", true, some "Interview is already complete", false⟩ :=
  conduct_on_complete_saves_again demoCompleteState demoCompleteSession
    "again" (.ok "reply2") 9
    (reachable_runOps demoOps FacState.init Reachable.init)
    (by decide) (by decide)

/-- C1: the claim states that every end() call saves the session through
the Transcript Store.  Evaluating the orchestrator on a started session
(current session present, active, non-empty conversation, empty store)
shows facilitator.end_session writes no transcript — the engine clears
current_session and the memory before _save_current_session reads the
(now cleared) current session — while still reporting that all data has
been saved.  The isComplete=true half of the claim does hold (see the
save in conduct_on_complete_saves_again), but the end() half fails. -/
theorem fac_end_writes_no_transcript :
    demoActiveState.current = some demoActiveSession ∧
    demoActiveSession.conversation ≠ [] ∧
    demoActiveSession.is_active = true ∧
    demoActiveState.store = [] ∧
    (fac_end demoActiveState 1).1.store = [] ∧
    (fac_end demoActiveState 1).2 =
      "Alignment session ended. All data has been saved." :=
  ⟨by decide, by decide, by decide, by decide, by decide, by decide⟩

end AlignAgent
